import Mathlib

/-!
Verification development for the two batch scripts of this repository,
`update_sc.py` (Starter-Criteria evaluator) and `update_tenure.py`
(team-tenure resolver).  The scripts are shallowly embedded: Python ints
become `ℤ`/`ℕ`, Python floats become `ℚ`, HTTP fetches become oracle
arguments whose values are the already-decoded JSON payloads (`Option`
models a fetch that failed / returned nothing), and Python dicts become
insertion-ordered association lists.
-/

set_option maxRecDepth 8192

namespace Contracts

/-! ## Embedding of `update_sc.py` -/

/-- One player-totals row as `fetch_nba_stats` extracts it (fields
`PLAYER_NAME`, `GP`, `GS`, `MIN` located by header name). -/
structure ScPlayer where
  name : String
  gp : ℤ
  gs : ℤ
  min : ℚ
deriving DecidableEq

/-- Python's `round(x)` with no digit argument: round half to even. -/
def pyRound (q : ℚ) : ℤ :=
  let f := ⌊q⌋
  if q - f < 1/2 then f
  else if (1 : ℚ)/2 < q - f then f + 1
  else if f % 2 = 0 then f else f + 1

/-- One entry of the `reasons` list built inside `evaluate_sc`.  The
script formats each entry as a string and joins with a separator; we keep
the structured numeric payloads instead of the rendered text. -/
inductive Reason
  | s4gs (gs4 : ℤ)
  | s4min (min4 : ℚ)
  | avggs (avg : ℚ)
  | avgmin (avg : ℚ)
  | bare (gs4 : ℤ) (min4 : ℚ)
deriving DecidableEq

/-- The kind of a reason entry, with the numeric payload forgotten. -/
inductive ReasonTag
  | s4gs | s4min | avggs | avgmin | bare
deriving DecidableEq

/-- Forget a reason's payload. -/
def Reason.tag : Reason → ReasonTag
  | .s4gs _ => .s4gs
  | .s4min _ => .s4min
  | .avggs _ => .avggs
  | .avgmin _ => .avgmin
  | .bare _ _ => .bare

/-- Position of each reason kind in the order `evaluate_sc` appends them. -/
def ReasonTag.rank : ReasonTag → ℕ
  | .s4gs => 0
  | .s4min => 1
  | .avggs => 2
  | .avgmin => 3
  | .bare => 4

/-- The `avg_gs` value of `evaluate_sc`:
`(gs3 + gs4) / 2 if prev else gs4`. -/
def sc_avg_gs (curr : ScPlayer) (prev : Option ScPlayer) : ℚ :=
  match prev with
  | some p => ((p.gs : ℚ) + (curr.gs : ℚ)) / 2
  | none => (curr.gs : ℚ)

/-- The `avg_min` value of `evaluate_sc`:
`(min3 + min4) / 2 if prev else min4`. -/
def sc_avg_min (curr : ScPlayer) (prev : Option ScPlayer) : ℚ :=
  match prev with
  | some p => (p.min + curr.min) / 2
  | none => curr.min

/-- The dictionary returned by `evaluate_sc` (its `reason` string is kept
as the structured list of entries that the script joins). -/
structure SCRecord where
  met : Bool
  gs4 : ℤ
  min4 : ℤ
  gs3 : ℤ
  min3 : ℤ
  reasons : List Reason
deriving DecidableEq

/-- `evaluate_sc(curr, prev)` from `update_sc.py`. -/
def evaluate_sc (curr : ScPlayer) (prev : Option ScPlayer) : SCRecord :=
  let gs4 := curr.gs
  let min4 := curr.min
  let gs3 : ℤ := match prev with | some p => p.gs | none => 0
  let min3 : ℚ := match prev with | some p => p.min | none => 0
  let s4_gs : Bool := decide (gs4 ≥ 41)
  let s4_min : Bool := decide (min4 ≥ 2000)
  let avg_gs_met : Bool := decide (sc_avg_gs curr prev ≥ 41)
  let avg_min_met : Bool := decide (sc_avg_min curr prev ≥ 2000)
  let met := s4_gs || s4_min || avg_gs_met || avg_min_met
  let reasons0 :=
    (if s4_gs then [Reason.s4gs gs4] else []) ++
    (if s4_min then [Reason.s4min min4] else []) ++
    (if avg_gs_met && !s4_gs then [Reason.avggs (sc_avg_gs curr prev)] else []) ++
    (if avg_min_met && !s4_min then [Reason.avgmin (sc_avg_min curr prev)] else [])
  let reasons := if reasons0 = [] then [Reason.bare gs4 min4] else reasons0
  { met := met, gs4 := gs4, min4 := pyRound min4, gs3 := gs3,
    min3 := pyRound min3, reasons := reasons }

/-- The SC rule exactly as the specification document words it: met iff
season-4 games-started is at least 41, or season-4 minutes at least 2000,
or the seasons-3-and-4 average games-started at least 41, or the
seasons-3-and-4 average minutes at least 2000 (the averages collapsing to
the season-4 value when no prior-season record exists).  Spec-side
definition, for comparison with `evaluate_sc`. -/
def scMetSpec (curr : ScPlayer) (prev : Option ScPlayer) : Prop :=
  curr.gs ≥ 41 ∨ curr.min ≥ 2000 ∨
    sc_avg_gs curr prev ≥ 41 ∨ sc_avg_min curr prev ≥ 2000

/-- Python dict assignment `d[k] = v` on an insertion-ordered
association list: an existing key keeps its position and gets the new
value; a fresh key is appended at the end. -/
def dictInsert {α β : Type} [DecidableEq α] (k : α) (v : β) :
    List (α × β) → List (α × β)
  | [] => [(k, v)]
  | (k', v') :: rest =>
      if k' = k then (k, v) :: rest else (k', v') :: dictInsert k v rest

/-- Association-list lookup, i.e. Python's `d.get(k)`. -/
def lookupD {α β : Type} [DecidableEq α] (l : List (α × β)) (k : α) :
    Option β :=
  (l.find? (fun kv => kv.1 = k)).map (fun kv => kv.2)

/-- The `prev_by_name` dictionary of `update_sc.main`. -/
def prevByName (prev_stats : List ScPlayer) : List (String × ScPlayer) :=
  prev_stats.foldl (fun acc p => dictInsert p.name p acc) []

/-- The tail of `update_sc.main` after the two fetches: abort with exit
status 1 when the current-season list is empty, else evaluate SC for
every current player, joining on the previous season by name. -/
def sc_main (curr_stats prev_stats : List ScPlayer) :
    Except ℕ (List (String × SCRecord)) :=
  if curr_stats = [] then Except.error 1
  else
    Except.ok (curr_stats.foldl
      (fun acc p =>
        dictInsert p.name (evaluate_sc p (lookupD (prevByName prev_stats) p.name)) acc)
      [])

/-- A result table of the leaguedash JSON body; the rows are kept in
already-typed form while the header list is kept so that the script's
header-name lookups (`headers.index(...)`) can be modelled. -/
structure ScResultSet where
  headers : List String
  rowSet : List ScPlayer
deriving DecidableEq

/-- The decoded JSON body of a leaguedash response. -/
structure StatsBody where
  resultSets : List ScResultSet
deriving DecidableEq

/-- Outcome of the single HTTP attempt made by `fetch_nba_stats`:
a transport/HTTP error raised by `urlopen` (which the script catches),
a JSON-decode error raised by `json.loads` (which it does not catch),
or a decoded body. -/
inductive FetchOutcome
  | netErr
  | badJson
  | ok (body : StatsBody)

/-- `fetch_nba_stats` from `update_sc.py`.  `Except.error` models an
uncaught Python exception propagating out of the function; note that the
body parsing (`data["resultSets"][0]`, `headers.index(...)`) happens
outside the `try` block, so its failures are not converted to `[]`. -/
def fetch_nba_stats (o : FetchOutcome) : Except String (List ScPlayer) :=
  match o with
  | .netErr => Except.ok []
  | .badJson => Except.error ("JSONDecodeError")
  | .ok body =>
    match body.resultSets.head? with
    | none => Except.error ("IndexError")
    | some rs =>
      if ("PLAYER_NAME") ∈ rs.headers ∧ ("GS") ∈ rs.headers ∧
          ("MIN") ∈ rs.headers ∧ ("GP") ∈ rs.headers
      then Except.ok rs.rowSet
      else Except.error ("ValueError")

/-! ## Embedding of `update_tenure.py` -/

/-- `api_get` from `update_tenure.py`.  The transport is modelled as a
map from attempt index to an optional decoded body (`none` = any
exception: network error, `raise_for_status`, or JSON decode failure —
the script catches them all).  The result pairs the returned value with
the list of `time.sleep` delays performed, `3 * (attempt + 1)` seconds
after each failed attempt. -/
def api_get {R : Type} (attempt : ℕ → Option R) : Option R × List ℕ :=
  match attempt 0 with
  | some r => (some r, [])
  | none =>
    match attempt 1 with
    | some r => (some r, [3])
    | none =>
      match attempt 2 with
      | some r => (some r, [3, 6])
      | none => (none, [3, 6, 9])

/-- The hard-coded current season string of `update_tenure.py`. -/
def SEASON : String := "2025-26"

/-- The `NBA_TEAMS` table, in its source (insertion) order. -/
def NBA_TEAMS : List (ℤ × String) :=
  [(1610612737, "ATL"), (1610612738, "BOS"), (1610612751, "BKN"), (1610612766, "CHA"),
   (1610612741, "CHI"), (1610612739, "CLE"), (1610612742, "DAL"), (1610612743, "DEN"),
   (1610612765, "DET"), (1610612744, "GSW"), (1610612745, "HOU"), (1610612754, "IND"),
   (1610612746, "LAC"), (1610612747, "LAL"), (1610612763, "MEM"), (1610612748, "MIA"),
   (1610612749, "MIL"), (1610612750, "MIN"), (1610612740, "NOP"), (1610612752, "NYK"),
   (1610612760, "OKC"), (1610612753, "ORL"), (1610612755, "PHI"), (1610612756, "PHX"),
   (1610612757, "POR"), (1610612758, "SAC"), (1610612759, "SAS"), (1610612761, "TOR"),
   (1610612762, "UTA"), (1610612764, "WAS")]

/-- Lexicographic strict order on character lists (by code point). -/
def charListLt : List Char → List Char → Bool
  | [], [] => false
  | [], _ :: _ => true
  | _ :: _, [] => false
  | a :: as, b :: bs =>
      if a < b then true else if b < a then false else charListLt as bs

/-- Python's `<` on strings: lexicographic by code point. -/
def pyStrLt (s t : String) : Bool := charListLt s.data t.data

/-- Python's `<=` on strings. -/
def pyStrLe (s t : String) : Bool := pyStrLt s t || decide (s = t)

/-- Stable insertion of one team into an abbreviation-ordered list
(used to model Python's stable `sorted(..., key=abbr)`). -/
def insertByAbbr (x : ℤ × String) : List (ℤ × String) → List (ℤ × String)
  | [] => [x]
  | y :: ys => if pyStrLt x.2 y.2 then x :: y :: ys else y :: insertByAbbr x ys

/-- `sorted(NBA_TEAMS.items(), key=abbreviation)`. -/
def sortByAbbr (l : List (ℤ × String)) : List (ℤ × String) :=
  l.foldr insertByAbbr []

/-- One roster row of a `commonteamroster` result table, with the fields
the script reads extracted by header name (`PLAYER`, `PLAYER_ID`). -/
structure RosterEntry where
  player : String
  player_id : ℤ
deriving DecidableEq

/-- One result table of a `commonteamroster` response. -/
structure RosterResultSet where
  name : String
  rows : List RosterEntry
deriving DecidableEq

/-- The per-player record built by the tenure script: the Phase-1 roster
fields plus the fields later phases add (unset fields are `none` /
defaults, mirroring dict keys not yet assigned). -/
structure TenInfo where
  name : String
  team : String
  team_id : ℤ
  player_id : ℤ
  joined_season : Option String := none
  continuous_seasons : ℕ := 0
  joined_this_season : Bool := false
  joined_date : Option String := none
deriving DecidableEq

/-- Rows of the `CommonTeamRoster` tables of one team's (optional)
response; a failed fetch (`if not data: continue`) contributes nothing. -/
def rosterRowsOf (d : Option (List RosterResultSet)) : List RosterEntry :=
  match d with
  | none => []
  | some rss =>
      ((rss.filter (fun rs => rs.name = "CommonTeamRoster")).map
        (fun rs => rs.rows)).flatten

/-- The record `fetch_all_rosters` stores for one roster row of one
team. -/
def rosterInfoOf (ta : ℤ × String) (row : RosterEntry) : TenInfo :=
  { name := row.player, team := ta.2, team_id := ta.1,
    player_id := row.player_id }

/-- `fetch_all_rosters` from `update_tenure.py`: iterate the 30 teams in
abbreviation order and build the `all_players` dict keyed by player id.
The extra-field capture (`HOW_ACQUIRED` etc.) is diagnostic output only
and is not modelled. -/
def fetch_all_rosters (get : ℤ → Option (List RosterResultSet)) :
    List (ℤ × TenInfo) :=
  (sortByAbbr NBA_TEAMS).foldl
    (fun acc ta =>
      (rosterRowsOf (get ta.1)).foldl
        (fun a row => dictInsert row.player_id (rosterInfoOf ta row) a)
        acc)
    []

/-- One career row of `SeasonTotalsRegularSeason`, with the fields the
script reads extracted by header name (`SEASON_ID`, `TEAM_ID`,
`LEAGUE_ID`). -/
structure CareerRow where
  season_id : String
  team_id : ℤ
  league_id : String
deriving DecidableEq

/-- One result table of a `playercareerstats` response. -/
structure CareerResultSet where
  name : String
  rows : List CareerRow
deriving DecidableEq

/-- Python `set.add` on a team-id set, modelled as a duplicate-free list. -/
def insertTeam (ts : List ℤ) (t : ℤ) : List ℤ :=
  if t ∈ ts then ts else ts ++ [t]

/-- One step of building the `seasons_with_team` `OrderedDict`. -/
def addSeasonTeam : List (String × List ℤ) → String × ℤ → List (String × List ℤ)
  | [], p => [(p.1, [p.2])]
  | (s, ts) :: rest, p =>
      if s = p.1 then (s, insertTeam ts p.2) :: rest
      else (s, ts) :: addSeasonTeam rest p

/-- The `seasons_with_team` `OrderedDict`: seasons in first-appearance
(chronological) order, each mapped to the set of team ids played for. -/
def seasons_with_team (st : List (String × ℤ)) : List (String × List ℤ) :=
  st.foldl addSeasonTeam []

/-- Lookup of one season's team set in the grouped structure. -/
def teamsOf (g : List (String × List ℤ)) (sid : String) : List ℤ :=
  match g.find? (fun x => x.1 = sid) with
  | some x => x.2
  | none => []

/-- The backward loop `for sid in reversed(season_list)` of
`fetch_career_tenure`: count matching seasons and keep overwriting
`first_season` until the first season whose team set lacks the current
team id, then break. -/
def tenureWalk (g : List (String × List ℤ)) (cur : ℤ) :
    List String → Option String × ℕ
  | [] => (none, 0)
  | sid :: rest =>
    if cur ∈ teamsOf g sid then
      let fc := tenureWalk g cur rest
      (some (fc.1.getD sid), fc.2 + 1)
    else (none, 0)

/-- The `season_teams` list: `(SEASON_ID, TEAM_ID)` for NBA
(`LEAGUE_ID == '00'`) rows, in row order. -/
def season_teams_of (rows : List CareerRow) : List (String × ℤ) :=
  (rows.filter (fun r => r.league_id = "00")).map
    (fun r => (r.season_id, r.team_id))

/-- The season list (keys of `seasons_with_team`) in chronological order. -/
def seasonListOf (rows : List CareerRow) : List String :=
  (seasons_with_team (season_teams_of rows)).map Prod.fst

/-- Body of `fetch_career_tenure` applied to the rows of the
`SeasonTotalsRegularSeason` table. -/
def processCareerRows (rows : List CareerRow) (current_team_id : ℤ) :
    Option String × ℕ :=
  let st := season_teams_of rows
  if st = [] then (none, 0)
  else
    tenureWalk (seasons_with_team st) current_team_id
      ((seasons_with_team st).map Prod.fst).reverse

/-- `fetch_career_tenure` from `update_tenure.py`; `data` is the
(optional) `resultSets` list of the `playercareerstats` response. -/
def fetch_career_tenure (data : Option (List CareerResultSet))
    (current_team_id : ℤ) : Option String × ℕ :=
  match data with
  | none => (none, 0)
  | some rss =>
    match rss.find? (fun rs => rs.name = "SeasonTotalsRegularSeason") with
    | some rs => processCareerRows rs.rows current_team_id
    | none => (none, 0)

/-- Auxiliary loop of the tenure backward walk exactly as §4.2 of the
specification describes it (spec-side definition, for comparison with the
code): visit each prior calendar season newest-first; if the player is
absent from that season's data or the current team id is not in their
played set, stop without extending; otherwise extend tenure-start to that
season and continue. -/
def specTenureWalkAux (present : String → Bool) (teams : String → List ℤ)
    (cur : ℤ) : List String → String × ℕ → String × ℕ
  | [], acc => acc
  | s :: rest, acc =>
    if present s && decide (cur ∈ teams s) then
      specTenureWalkAux present teams cur rest (s, acc.2 + 1)
    else acc

/-- The tenure backward walk as the specification describes it: start
from the current season (tenure-start = current season, one continuous
season) and walk the prior calendar seasons newest-first. -/
def specTenureWalk (present : String → Bool) (teams : String → List ℤ)
    (cur : ℤ) (currentSeason : String) (priorSeasons : List String) :
    String × ℕ :=
  specTenureWalkAux present teams cur priorSeasons (currentSeason, 1)

/-- One game row of a `playergamelog` result table (`MATCHUP`,
`GAME_DATE` extracted by header name). -/
structure GameRow where
  matchup : String
  game_date : String
deriving DecidableEq

/-- One result table of a `playergamelog` response. -/
structure GameLogResultSet where
  name : String
  rows : List GameRow
deriving DecidableEq

/-- `fetch_first_game_date` from `update_tenure.py`: rows arrive
newest-first, the date of the last row (the earliest game) is returned;
no rows, no matching table, or a failed fetch gives `None`. -/
def fetch_first_game_date (data : Option (List GameLogResultSet)) :
    Option String :=
  match data with
  | none => none
  | some rss =>
    match rss.find? (fun rs => rs.name = "PlayerGameLog") with
    | none => none
    | some rs =>
      if rs.rows = [] then none
      else (rs.rows.map (fun r => r.game_date)).getLast?

/-- Phase 2 of `update_tenure.main`: for every player, in `all_players`
order, record `joined_season`, `continuous_seasons` and the
`joined_this_season` flag `(first_season == SEASON and count == 1)`. -/
def phase2 (careerGet : ℤ → Option (List CareerResultSet))
    (players : List (ℤ × TenInfo)) : List (ℤ × TenInfo) :=
  players.map (fun x =>
    let fc := fetch_career_tenure (careerGet x.1) x.2.team_id
    (x.1, { x.2 with
      joined_season := fc.1,
      continuous_seasons := fc.2,
      joined_this_season := decide (fc.1 = some SEASON) && decide (fc.2 = 1) }))

/-- Phase 3 of `update_tenure.main`: for the players flagged
`joined_this_season`, look up the exact first game date; leave
`joined_date` unset when the lookup yields nothing. -/
def phase3 (glGet : ℤ → Option (List GameLogResultSet))
    (players : List (ℤ × TenInfo)) : List (ℤ × TenInfo) :=
  players.map (fun x =>
    if x.2.joined_this_season then
      match fetch_first_game_date (glGet x.1) with
      | some d => (x.1, { x.2 with joined_date := some d })
      | none => (x.1, x.2)
    else (x.1, x.2))

/-- Decimal digit test on a character. -/
def isDigitChar (c : Char) : Bool :=
  decide (48 ≤ c.toNat) && decide (c.toNat ≤ 57)

/-- Digit run parsing: Python `int(s)` on the strings that appear as the
year part of a season id (success exactly on a non-empty all-digit
string, the failure raising `ValueError` which the script catches). -/
def parseYear (s : String) : Option ℕ :=
  if s.data ≠ [] ∧ s.data.all isDigitChar then
    some (s.data.foldl (fun acc c => acc * 10 + (c.toNat - 48)) 0)
  else none

/-- The characters of `s` up to the first dash: `s.split('-')[0]`. -/
def beforeDash (s : String) : String :=
  String.mk (s.data.takeWhile (fun c => c ≠ Char.ofNat 45))

/-- Python truthiness of the optional `joined_season` string. -/
def seasonTruthy : Option String → Bool
  | none => false
  | some s => decide (s ≠ "")

/-- The approximate-season-start fallback of `update_tenure.main`: when
`joined_date` was never set and `joined_season` is truthy, set it to
October 1 of the starting year; a year-parse failure stores `None`. -/
def fallbackDates (players : List (ℤ × TenInfo)) : List (ℤ × TenInfo) :=
  players.map (fun x =>
    if x.2.joined_date = none ∧ seasonTruthy x.2.joined_season then
      match x.2.joined_season with
      | none => (x.1, x.2)
      | some js =>
        match parseYear (beforeDash js) with
        | some y => (x.1, { x.2 with joined_date := some (toString y ++ "-10-01") })
        | none => (x.1, { x.2 with joined_date := none })
    else (x.1, x.2))

/-- One value of the output `players` mapping of `tenure_data.json`
(the passthrough of extra roster fields such as `HOW_ACQUIRED` is not
modelled since the roster model carries none). -/
structure OutRec where
  team : String
  team_id : ℤ
  player_id : ℤ
  joined_season : Option String
  joined_date : Option String
  continuous_seasons : ℕ
  joined_this_season : Bool
deriving DecidableEq

/-- The output record built from one player's accumulated info. -/
def outRecOf (i : TenInfo) : OutRec :=
  { team := i.team, team_id := i.team_id, player_id := i.player_id,
    joined_season := i.joined_season, joined_date := i.joined_date,
    continuous_seasons := i.continuous_seasons,
    joined_this_season := i.joined_this_season }

/-- The output `players` dict, keyed by player name, in `all_players`
iteration order. -/
def buildOutput (players : List (ℤ × TenInfo)) : List (String × OutRec) :=
  players.foldl
    (fun acc x => dictInsert x.2.name (outRecOf x.2) acc)
    []

/-- The full player pipeline of `update_tenure.main`. -/
def tenureOutput (rosterGet : ℤ → Option (List RosterResultSet))
    (careerGet : ℤ → Option (List CareerResultSet))
    (glGet : ℤ → Option (List GameLogResultSet)) : List (String × OutRec) :=
  buildOutput (fallbackDates (phase3 glGet (phase2 careerGet
    (fetch_all_rosters rosterGet))))

/-- `update_tenure.main` with an explicit exit channel: `Except.error`
would model a `sys.exit` with a non-zero status, which the script never
performs — every fetch failure is absorbed and the run writes whatever
players remain. -/
def tenure_main (rosterGet : ℤ → Option (List RosterResultSet))
    (careerGet : ℤ → Option (List CareerResultSet))
    (glGet : ℤ → Option (List GameLogResultSet)) :
    Except ℕ (List (String × OutRec)) :=
  Except.ok (tenureOutput rosterGet careerGet glGet)

/-- The ordering relation claimed for the tenure output: team
abbreviation ascending, then continuous-season count descending, then
player name ascending. -/
def c8Le (a b : String × OutRec) : Prop :=
  pyStrLt a.2.team b.2.team = true ∨
    (a.2.team = b.2.team ∧
      (b.2.continuous_seasons < a.2.continuous_seasons ∨
        (a.2.continuous_seasons = b.2.continuous_seasons ∧ pyStrLe a.1 b.1 = true)))

instance (a b : String × OutRec) : Decidable (c8Le a b) := by
  unfold c8Le; infer_instance


/-- A Python call that returned normally (`Except.ok`) rather than
raising or exiting. -/
def exceptIsOk {e a : Type} : Except e a → Bool
  | .ok _ => true
  | .error _ => false

/-- The names of all roster rows, per team in abbreviation-sorted team
order, flattened. -/
def allRosterNames (get : ℤ → Option (List RosterResultSet)) : List String :=
  ((sortByAbbr NBA_TEAMS).map
    (fun ta => (rosterRowsOf (get ta.1)).map (fun r => r.player))).flatten

/-- The player ids of all roster rows, per team in abbreviation-sorted
team order, flattened. -/
def allRosterPids (get : ℤ → Option (List RosterResultSet)) : List ℤ :=
  ((sortByAbbr NBA_TEAMS).map
    (fun ta => (rosterRowsOf (get ta.1)).map (fun r => r.player_id))).flatten

/-! Concrete inputs used to settle individual claims. -/

/-- Career rows of a player on team 10 in 2023-24 and 2025-26 but absent
from the league in 2024-25 (a gap season). -/
def c2GapRows : List CareerRow :=
  [⟨("2023-24"), 10, ("00")⟩, ⟨("2025-26"), 10, ("00")⟩]

/-- Career response for the gap-season player. -/
def c2GapData : Option (List CareerResultSet) :=
  some [⟨("SeasonTotalsRegularSeason"), c2GapRows⟩]

/-- Season-presence oracle of the gap-season player. -/
def c2Present : String → Bool := fun s => decide (s ∈ seasonListOf c2GapRows)

/-- Per-season played-team sets of the gap-season player. -/
def c2Teams : String → List ℤ :=
  teamsOf (seasons_with_team (season_teams_of c2GapRows))

/-- Career rows of a player on team 10 in seasons N, N-1, N-2 and on
team 20 in season N-3 (with N = 2025-26). -/
def c2AaabRows : List CareerRow :=
  [⟨("2022-23"), 20, ("00")⟩, ⟨("2023-24"), 10, ("00")⟩,
   ⟨("2024-25"), 10, ("00")⟩, ⟨("2025-26"), 10, ("00")⟩]

/-- Career response for the team-change player. -/
def c2AaabData : Option (List CareerResultSet) :=
  some [⟨("SeasonTotalsRegularSeason"), c2AaabRows⟩]

/-- Career rows of a player on team 5 for 23 consecutive listed seasons
(one more than the spec's example lookback bound of 22). -/
def c4Rows : List CareerRow :=
  [⟨("s01"), 5, ("00")⟩, ⟨("s02"), 5, ("00")⟩, ⟨("s03"), 5, ("00")⟩,
   ⟨("s04"), 5, ("00")⟩, ⟨("s05"), 5, ("00")⟩, ⟨("s06"), 5, ("00")⟩,
   ⟨("s07"), 5, ("00")⟩, ⟨("s08"), 5, ("00")⟩, ⟨("s09"), 5, ("00")⟩,
   ⟨("s10"), 5, ("00")⟩, ⟨("s11"), 5, ("00")⟩, ⟨("s12"), 5, ("00")⟩,
   ⟨("s13"), 5, ("00")⟩, ⟨("s14"), 5, ("00")⟩, ⟨("s15"), 5, ("00")⟩,
   ⟨("s16"), 5, ("00")⟩, ⟨("s17"), 5, ("00")⟩, ⟨("s18"), 5, ("00")⟩,
   ⟨("s19"), 5, ("00")⟩, ⟨("s20"), 5, ("00")⟩, ⟨("s21"), 5, ("00")⟩,
   ⟨("s22"), 5, ("00")⟩, ⟨("s23"), 5, ("00")⟩]

/-- Career response of the 23-season one-team player. -/
def c4Data : Option (List CareerResultSet) :=
  some [⟨("SeasonTotalsRegularSeason"), c4Rows⟩]

/-- Rosters for the C8 counterexample: one team (ATL) whose roster rows
arrive as Bob (1 continuous season) before Amy (5 continuous seasons). -/
def c8RosterGet : ℤ → Option (List RosterResultSet) :=
  fun tid =>
    if tid = 1610612737 then
      some [⟨("CommonTeamRoster"), [⟨("Bob"), 1⟩, ⟨("Amy"), 2⟩]⟩]
    else none

/-- Career data giving Bob one season and Amy five seasons on ATL. -/
def c8CareerGet : ℤ → Option (List CareerResultSet) :=
  fun pid =>
    if pid = 1 then
      some [⟨("SeasonTotalsRegularSeason"), [⟨("2025-26"), 1610612737, ("00")⟩]⟩]
    else if pid = 2 then
      some [⟨("SeasonTotalsRegularSeason"),
        [⟨("2021-22"), 1610612737, ("00")⟩, ⟨("2022-23"), 1610612737, ("00")⟩,
         ⟨("2023-24"), 1610612737, ("00")⟩, ⟨("2024-25"), 1610612737, ("00")⟩,
         ⟨("2025-26"), 1610612737, ("00")⟩]⟩]
    else none

/-- Roster for the C9 failing input: one player, Newy, on ATL. -/
def c9RosterGet : ℤ → Option (List RosterResultSet) :=
  fun tid =>
    if tid = 1610612737 then
      some [⟨("CommonTeamRoster"), [⟨("Newy"), 3⟩]⟩]
    else none

/-- Career data flagging Newy as joined this season (single 2025-26
season on the current team). -/
def c9CareerGet : ℤ → Option (List CareerResultSet) :=
  fun pid =>
    if pid = 3 then
      some [⟨("SeasonTotalsRegularSeason"), [⟨("2025-26"), 1610612737, ("00")⟩]⟩]
    else none

/-- Game log for Newy: the request succeeds but contains zero rows. -/
def c9GlGet : ℤ → Option (List GameLogResultSet) :=
  fun _ => some [⟨("PlayerGameLog"), []⟩]

/-- Roster for the C10 concrete case: one player, Solo, on ATL, whose
career fetch will fail. -/
def c10RosterGet : ℤ → Option (List RosterResultSet) :=
  fun tid =>
    if tid = 1610612737 then
      some [⟨("CommonTeamRoster"), [⟨("Solo"), 7⟩]⟩]
    else none

/-- Career rows of a two-season one-team player used to witness the C10
suffix invariant. -/
def c10DemoRows : List CareerRow :=
  [⟨("2024-25"), 10, ("00")⟩, ⟨("2025-26"), 10, ("00")⟩]

/-! ## Helper lemmas -/

/-- The backward loop of `fetch_career_tenure` computes the longest
all-matching prefix of the (newest-first) season list: the count is its
length and the resolved first season is its last (oldest) element. -/
theorem tenureWalk_eq (g : List (String × List ℤ)) (cur : ℤ) (rl : List String) :
    tenureWalk g cur rl =
      ((rl.takeWhile fun s => decide (cur ∈ teamsOf g s)).getLast?,
       (rl.takeWhile fun s => decide (cur ∈ teamsOf g s)).length) := by
  induction rl with
  | nil => rfl
  | cons sid rest ih =>
    by_cases h : cur ∈ teamsOf g sid
    · simp [tenureWalk, h, ih, List.takeWhile_cons, List.getLast?_cons]
    · simp [tenureWalk, h, List.takeWhile_cons]

/-- Inserting a fresh key into a Python dict appends the pair. -/
theorem dictInsert_fresh {α β : Type} [DecidableEq α] (k : α) (v : β)
    (l : List (α × β)) (h : k ∉ l.map Prod.fst) :
    dictInsert k v l = l ++ [(k, v)] := by
  induction l with
  | nil => rfl
  | cons x xs ih =>
    obtain ⟨k', v'⟩ := x
    simp only [List.map_cons, List.mem_cons] at h
    push_neg at h
    simp [dictInsert, Ne.symm h.1, ih h.2]

/-- Repeated Python dict assignment with globally distinct keys appends
the entries in iteration order. -/
theorem foldl_dictInsert_append {α β γ : Type} [DecidableEq α]
    (key : γ → α) (val : γ → β) :
    ∀ (l : List γ) (acc : List (α × β)),
      (acc.map Prod.fst ++ l.map key).Nodup →
      l.foldl (fun a x => dictInsert (key x) (val x) a) acc =
        acc ++ l.map (fun x => (key x, val x)) := by
  intro l
  induction l with
  | nil => intro acc _; simp
  | cons x xs ih =>
    intro acc h
    have hk : key x ∉ acc.map Prod.fst := by
      rw [List.nodup_append] at h
      intro hmem
      exact h.2.2 hmem (by simp)
    rw [List.foldl_cons, dictInsert_fresh _ _ _ hk, ih]
    · simp
    · simpa using h

/-! ## Claims about the SC evaluator -/

/-- C1: for every player record the SC evaluation returns `met = true`
iff at least one of the four threshold tests holds (season-4 GS ≥ 41,
season-4 MIN ≥ 2000, seasons-3-and-4 average GS ≥ 41, seasons-3-and-4
average MIN ≥ 2000); in particular the spec's example — season 4
gs=20/min=1600, season 3 gs=41/min=1500 — is not met. -/
theorem c1_sc_met_iff :
    (∀ curr prev, ((evaluate_sc curr prev).met = true ↔ scMetSpec curr prev)) ∧
    (evaluate_sc ⟨("P1"), 60, 20, 1600⟩ (some ⟨("P1"), 70, 41, 1500⟩)).met = false := by
  constructor
  · intro curr prev
    simp [evaluate_sc, scMetSpec, Bool.or_eq_true, decide_eq_true_eq]
    tauto
  · simp [evaluate_sc, sc_avg_gs, sc_avg_min]
    norm_num

/-- C3: with no season-3 record the SC averages are the season-4 values
themselves, not the mean of zero and the season-4 value; the spec's
example — season 4 gs=45/min=1800, no season 3 — is met. -/
theorem c3_missing_prior_average :
    (∀ curr, sc_avg_gs curr none = (curr.gs : ℚ) ∧ sc_avg_min curr none = curr.min) ∧
    sc_avg_gs ⟨("P3"), 70, 45, 1800⟩ none ≠ ((0 : ℚ) + 45) / 2 ∧
    (evaluate_sc ⟨("P3"), 70, 45, 1800⟩ none).met = true := by
  refine ⟨fun curr => ⟨rfl, rfl⟩, by norm_num [sc_avg_gs], by decide⟩

/-- C7: the reason list contains a season-4 entry iff the corresponding
season-4 test holds (unconditionally), an average entry iff the average
test holds and the corresponding season-4 test does not, reduces to the
bare season-4 figures exactly when no test is met, and its entries appear
in the fixed order season-4 GS, season-4 MIN, average GS, average MIN. -/
theorem c7_reason_structure :
    ∀ curr prev,
      (ReasonTag.s4gs ∈ ((evaluate_sc curr prev).reasons.map Reason.tag) ↔
        curr.gs ≥ 41) ∧
      (ReasonTag.s4min ∈ ((evaluate_sc curr prev).reasons.map Reason.tag) ↔
        curr.min ≥ 2000) ∧
      (ReasonTag.avggs ∈ ((evaluate_sc curr prev).reasons.map Reason.tag) ↔
        (sc_avg_gs curr prev ≥ 41 ∧ ¬ curr.gs ≥ 41)) ∧
      (ReasonTag.avgmin ∈ ((evaluate_sc curr prev).reasons.map Reason.tag) ↔
        (sc_avg_min curr prev ≥ 2000 ∧ ¬ curr.min ≥ 2000)) ∧
      ((evaluate_sc curr prev).met = false ↔
        (evaluate_sc curr prev).reasons.map Reason.tag = [ReasonTag.bare]) ∧
      List.Chain' (fun a b => ReasonTag.rank a < ReasonTag.rank b)
        ((evaluate_sc curr prev).reasons.map Reason.tag) := by
  intro curr prev
  by_cases h1 : curr.gs ≥ 41 <;> by_cases h2 : curr.min ≥ 2000 <;>
    by_cases h3 : sc_avg_gs curr prev ≥ 41 <;>
    by_cases h4 : sc_avg_min curr prev ≥ 2000 <;>
    simp [evaluate_sc, h1, h2, h3, h4, Reason.tag, ReasonTag.rank]

/-- C7 witness: concrete instance of the reason-structure theorem. -/
theorem c7_witness :
    ReasonTag.s4gs ∈
      ((evaluate_sc ⟨("W7"), 70, 45, 1800⟩ none).reasons.map Reason.tag) :=
  (c7_reason_structure ⟨("W7"), 70, 45, 1800⟩ none).1.mpr (by norm_num)

/-! ## Claims about the tenure backward walk -/

/-- C2 counterexample: for the gap-season player (on team 10 in 2023-24
and 2025-26, absent in 2024-25) the walk as claimed — visiting prior
calendar seasons newest-first, resolving on absence — stops at 2024-25
with tenure-start 2025-26 and 1 continuous season, but the code extends
across the gap to 2023-24 with 2 continuous seasons. -/
theorem c2_counterexample :
    specTenureWalk c2Present c2Teams 10 ("2025-26") [("2024-25"), ("2023-24")] =
      (("2025-26"), 1) ∧
    fetch_career_tenure c2GapData 10 = (some ("2023-24"), 2) ∧
    (some (("2025-26" : String)), (1 : ℕ)) ≠ (some ("2023-24"), 2) := by
  refine ⟨by decide, by decide, by decide⟩

/-- C2 (amended): the walk visits only the seasons listed in the
player's career data, newest first; it resolves at the first listed
season whose played-team set lacks the current team id (a season in
which the player is absent is skipped entirely and never stops the
walk); the count is the length of the matching prefix and tenure-start
its oldest season.  The A,A,A,B player resolves to season N-2 with 3
continuous seasons, and the gap-season player to 2023-24 with 2. -/
theorem c2_amended_walk :
    (∀ g cur rl, tenureWalk g cur rl =
        ((rl.takeWhile fun s => decide (cur ∈ teamsOf g s)).getLast?,
         (rl.takeWhile fun s => decide (cur ∈ teamsOf g s)).length)) ∧
    fetch_career_tenure c2AaabData 10 = (some ("2023-24"), 3) ∧
    fetch_career_tenure c2GapData 10 = (some ("2023-24"), 2) := by
  refine ⟨tenureWalk_eq, by decide, by decide⟩

/-- C4 counterexample: the walk has no lookback cap: a player with 23
all-matching listed seasons gets tenure-start s01 and count 23, where
s01 lies outside the 22 newest seasons (the spec's example bound). -/
theorem c4_counterexample :
    fetch_career_tenure c4Data 5 = (some ("s01"), 23) ∧
    ("s01") ∉ ((seasonListOf c4Rows).reverse.take 22) ∧ (22 : ℕ) < 23 := by
  refine ⟨by decide, by decide, by decide⟩

/-- C4 (amended): the backward walk examines every listed season with no
fixed maximum: a player matching their current team at every listed
season gets a count equal to the full season-list length (and tenure
start its oldest element), however long the career. -/
theorem c4_amended_no_cap :
    ∀ g cur rl, (∀ s ∈ rl, cur ∈ teamsOf g s) →
      tenureWalk g cur rl = (rl.getLast?, rl.length) := by
  intro g cur rl h
  rw [tenureWalk_eq]
  rw [List.takeWhile_eq_self_iff.mpr (by simpa using h)]

/-- C4 witness: the no-cap theorem applied to the 23-season player. -/
theorem c4_witness :
    22 < (tenureWalk (seasons_with_team (season_teams_of c4Rows)) 5
      (seasonListOf c4Rows).reverse).2 := by
  rw [c4_amended_no_cap (seasons_with_team (season_teams_of c4Rows)) 5
    (seasonListOf c4Rows).reverse (by decide)]
  decide

/-! ## Claims about fetching and exit behaviour -/

/-- C5 counterexample: the update_sc leaf fetch raises (propagates an
exception) on a body without the expected JSON structure instead of
retrying and returning an empty result. -/
theorem c5_counterexample :
    fetch_nba_stats (FetchOutcome.ok ⟨[]⟩) = Except.error ("IndexError") ∧
    fetch_nba_stats (FetchOutcome.ok ⟨[]⟩) ≠ Except.ok [] := by
  refine ⟨rfl, by simp [fetch_nba_stats]⟩

/-- C5 (amended): `api_get` in update_tenure retries up to 3 attempts
with delays 3·1, 3·2, 3·3 seconds and returns an absent result instead
of raising; `fetch_nba_stats` in update_sc makes a single attempt,
returns `[]` on a caught network/HTTP error, but propagates an exception
on malformed JSON or a missing result table. -/
theorem c5_amended_retry :
    (∀ (R : Type) (f : ℕ → Option R),
        f 0 = none → f 1 = none → f 2 = none → api_get f = (none, [3, 6, 9])) ∧
    (∀ (R : Type) (f : ℕ → Option R) (r : R),
        f 0 = none → f 1 = some r → api_get f = (some r, [3])) ∧
    (∀ (R : Type) (f : ℕ → Option R) (r : R),
        f 0 = some r → api_get f = (some r, [])) ∧
    fetch_nba_stats FetchOutcome.netErr = Except.ok [] ∧
    fetch_nba_stats FetchOutcome.badJson = Except.error ("JSONDecodeError") ∧
    fetch_nba_stats (FetchOutcome.ok ⟨[]⟩) = Except.error ("IndexError") := by
  refine ⟨?_, ?_, ?_, rfl, rfl, rfl⟩ <;> intros <;> simp [api_get, *]

/-- C5 witness: a transport failing all three attempts. -/
theorem c5_witness :
    api_get (fun _ => (none : Option ℕ)) = (none, [3, 6, 9]) :=
  c5_amended_retry.1 ℕ (fun _ => none) rfl rfl rfl

/-- C6 counterexample: when every roster fetch fails (the mandatory
initial current-season fetch of update_tenure), the script does not exit
with a non-zero status — it completes normally with an empty players
mapping. -/
theorem c6_counterexample :
    tenure_main (fun _ => none) (fun _ => none) (fun _ => none) =
      Except.ok [] := by
  rfl

/-- C6 (amended): in update_sc an empty current-season fetch exits with
status 1 and any non-empty current season proceeds (also when the
previous-season fetch failed); update_tenure never exits non-zero — it
always returns its output, whatever fetches failed. -/
theorem c6_amended_exits :
    (∀ prev, sc_main [] prev = Except.error 1) ∧
    (∀ curr prev, curr ≠ [] → exceptIsOk (sc_main curr prev) = true) ∧
    (∀ rg cg gg, tenure_main rg cg gg = Except.ok (tenureOutput rg cg gg)) := by
  refine ⟨fun prev => rfl, ?_, fun rg cg gg => rfl⟩
  intro curr prev h
  simp [sc_main, h, exceptIsOk]

/-- C6 witness: a one-player current season proceeds normally. -/
theorem c6_witness :
    exceptIsOk (sc_main [⟨("W6"), 1, 0, 0⟩] []) = true :=
  c6_amended_exits.2.1 [⟨("W6"), 1, 0, 0⟩] [] (by simp)

/-- C9: the exact join date is the date of the last row of the
newest-first game log, and an empty game log yields `None` from
`fetch_first_game_date`; but for a joined-this-season player with an
empty game log the season-start fallback then sets the output
`joined_date` to 2025-10-01 instead of leaving it null. -/
theorem c9_faithful_evaluation :
    fetch_first_game_date (some [⟨("PlayerGameLog"),
      [⟨("m1"), ("2026-01-05")⟩, ⟨("m2"), ("2025-12-01")⟩,
       ⟨("m3"), ("2025-10-25")⟩]⟩]) = some ("2025-10-25") ∧
    fetch_first_game_date (some [⟨("PlayerGameLog"), []⟩]) = none ∧
    tenureOutput c9RosterGet c9CareerGet c9GlGet =
      [(("Newy"), ⟨("ATL"), 1610612737, 3, some ("2025-26"),
        some ("2025-10-01"), 1, true⟩)] := by
  refine ⟨by decide, rfl, by decide⟩

/-- The none/zero coupling of `processCareerRows`. -/
theorem processCareerRows_none_iff (rows : List CareerRow) (cur : ℤ) :
    ((processCareerRows rows cur).1 = none ↔ (processCareerRows rows cur).2 = 0) := by
  by_cases hst : season_teams_of rows = []
  · simp [processCareerRows, hst]
  · simp [processCareerRows, hst, tenureWalk_eq, List.getLast?_eq_none_iff,
      List.length_eq_zero]

/-- C10: `fetch_career_tenure` returns a null joined season exactly when
the continuous-season count is zero; a failed fetch and an NBA-row-less
career both give `(None, 0)`; such a player appears in the output with
null joined season, zero continuous seasons and `joined_this_season`
false; and a positive count means the current team id occurs in the
played-team set of every listed season from the joined season (the head
of the final suffix of the season list) through the most recent one. -/
theorem c10_tenure_invariants :
    (∀ data cur, ((fetch_career_tenure data cur).1 = none ↔
        (fetch_career_tenure data cur).2 = 0)) ∧
    (∀ cur, fetch_career_tenure none cur = (none, 0)) ∧
    (∀ cur rows, season_teams_of rows = [] →
        processCareerRows rows cur = (none, 0)) ∧
    (tenureOutput c10RosterGet (fun _ => none) (fun _ => none) =
      [(("Solo"), ⟨("ATL"), 1610612737, 7, none, none, 0, false⟩)]) ∧
    (∀ rows cur f c, processCareerRows rows cur = (some f, c) → 0 < c →
      c ≤ (seasonListOf rows).length ∧
      ((seasonListOf rows).drop ((seasonListOf rows).length - c)).head? = some f ∧
      ∀ s ∈ (seasonListOf rows).drop ((seasonListOf rows).length - c),
        cur ∈ teamsOf (seasons_with_team (season_teams_of rows)) s) := by
  refine ⟨?_, fun cur => rfl, ?_, by decide, ?_⟩
  · intro data cur
    cases data with
    | none => simp [fetch_career_tenure]
    | some rss =>
      cases hfind : rss.find? (fun rs => rs.name = "SeasonTotalsRegularSeason") with
      | none => simp [fetch_career_tenure, hfind]
      | some rs =>
        simpa [fetch_career_tenure, hfind] using
          processCareerRows_none_iff rs.rows cur
  · intro cur rows h
    simp [processCareerRows, h]
  · intro rows cur f c hpc hc
    by_cases hst : season_teams_of rows = []
    · simp [processCareerRows, hst] at hpc
    · simp only [processCareerRows] at hpc
      rw [if_neg hst, tenureWalk_eq, Prod.ext_iff] at hpc
      obtain ⟨hf, hcl⟩ := hpc
      simp only [seasonListOf]
      set g := seasons_with_team (season_teams_of rows) with hg
      set sl := (seasons_with_team (season_teams_of rows)).map Prod.fst with hsl
      set p : String → Bool := fun s => decide (cur ∈ teamsOf g s) with hp
      set tw := (sl.reverse).takeWhile p with htw
      set dw := (sl.reverse).dropWhile p with hdw
      have htd : tw ++ dw = sl.reverse := List.takeWhile_append_dropWhile p sl.reverse
      have hslr : sl = dw.reverse ++ tw.reverse := by
        calc sl = (sl.reverse).reverse := (List.reverse_reverse sl).symm
          _ = (tw ++ dw).reverse := by rw [htd]
          _ = dw.reverse ++ tw.reverse := List.reverse_append tw dw
      have hlen : sl.length = dw.length + tw.length := by
        conv_lhs => rw [hslr]
        simp [Nat.add_comm]
      have hdrop : sl.drop (sl.length - c) = tw.reverse := by
        have hns : sl.length - c = dw.length := by omega
        rw [hns]
        conv_lhs => rw [hslr]
        exact List.drop_left' (by simp)
      refine ⟨by omega, ?_, ?_⟩
      · rw [hdrop, List.head?_reverse]
        exact hf
      · intro s hs
        rw [hdrop, List.mem_reverse] at hs
        have := List.mem_takeWhile_imp hs
        simpa [hp] using this

/-- C10 witness: the no-rows case and the suffix invariant at a concrete
two-season one-team player. -/
theorem c10_witness :
    processCareerRows ([] : List CareerRow) 0 = (none, 0) ∧
    2 ≤ (seasonListOf c10DemoRows).length := by
  constructor
  · exact c10_tenure_invariants.2.2.1 0 [] rfl
  · exact (c10_tenure_invariants.2.2.2.2 c10DemoRows 10 ("2024-25") 2
      (by decide) (by decide)).1

/-! ## Claim about the output ordering -/

/-- A map step that keeps each player's name keeps the mapped name list. -/
theorem map_name_of_keep (F : ℤ × TenInfo → ℤ × TenInfo)
    (hF : ∀ x, (F x).2.name = x.2.name) :
    ∀ l : List (ℤ × TenInfo),
      (l.map F).map (fun x => x.2.name) = l.map (fun x => x.2.name) := by
  intro l
  induction l with
  | nil => rfl
  | cons a t ih => simp [hF, ih]

/-- Phase 2 keeps the name list. -/
theorem map_name_phase2 (cg : ℤ → Option (List CareerResultSet))
    (l : List (ℤ × TenInfo)) :
    (phase2 cg l).map (fun x => x.2.name) = l.map (fun x => x.2.name) := by
  simp only [phase2]
  refine map_name_of_keep _ (fun x => ?_) l
  rfl

/-- Phase 3 keeps the name list. -/
theorem map_name_phase3 (gg : ℤ → Option (List GameLogResultSet))
    (l : List (ℤ × TenInfo)) :
    (phase3 gg l).map (fun x => x.2.name) = l.map (fun x => x.2.name) := by
  refine map_name_of_keep _ ?_ l
  intro x
  by_cases hj : x.2.joined_this_season
  · cases hfd : fetch_first_game_date (gg x.1) <;> simp [hj, hfd]
  · simp [hj]

/-- The season-start fallback keeps the name list. -/
theorem map_name_fallback (l : List (ℤ × TenInfo)) :
    (fallbackDates l).map (fun x => x.2.name) = l.map (fun x => x.2.name) := by
  refine map_name_of_keep _ ?_ l
  intro x
  by_cases hc : x.2.joined_date = none ∧ seasonTruthy x.2.joined_season
  · obtain ⟨hd, hs⟩ := hc
    cases hjs : x.2.joined_season with
    | none => rw [hjs] at hs; simp [seasonTruthy] at hs
    | some js =>
      rw [hjs] at hs
      cases hpy : parseYear (beforeDash js) <;> simp [hd, hjs, hs, hpy]
  · simp [hc]

/-- With globally distinct player ids, `fetch_all_rosters` is the
concatenation of the per-team entries in abbreviation-sorted team
order. -/
theorem foldTeams_eq (get : ℤ → Option (List RosterResultSet)) :
    ∀ (teams : List (ℤ × String)) (acc : List (ℤ × TenInfo)),
      (acc.map Prod.fst ++
        ((teams.map (fun ta => (rosterRowsOf (get ta.1)).map
          (fun r => r.player_id))).flatten)).Nodup →
      teams.foldl
        (fun acc ta =>
          (rosterRowsOf (get ta.1)).foldl
            (fun a row => dictInsert row.player_id (rosterInfoOf ta row) a)
            acc)
        acc =
        acc ++ (teams.map (fun ta => (rosterRowsOf (get ta.1)).map
          (fun row => (row.player_id, rosterInfoOf ta row)))).flatten := by
  intro teams
  induction teams with
  | nil => intro acc _; simp
  | cons ta rest ih =>
    intro acc h
    rw [List.foldl_cons]
    rw [foldl_dictInsert_append (fun row : RosterEntry => row.player_id)
      (rosterInfoOf ta) _ _ ?h1]
    rw [ih _ ?h2]
    · simp
    case h1 =>
      refine List.Nodup.sublist ?_ h
      refine List.Sublist.append_left ?_ _
      simp only [List.map_cons, List.flatten_cons]
      exact List.sublist_append_left _ _
    case h2 =>
      simpa [List.map_map, List.append_assoc] using h

/-- `fetch_all_rosters` flattened, under global player-id distinctness. -/
theorem fetch_all_rosters_eq (get : ℤ → Option (List RosterResultSet))
    (h : (allRosterPids get).Nodup) :
    fetch_all_rosters get =
      ((sortByAbbr NBA_TEAMS).map (fun ta => (rosterRowsOf (get ta.1)).map
        (fun row => (row.player_id, rosterInfoOf ta row)))).flatten := by
  have := foldTeams_eq get (sortByAbbr NBA_TEAMS) []
    (by simpa [allRosterPids] using h)
  simpa [fetch_all_rosters] using this

/-- With distinct names, the output dict lists players in input order. -/
theorem buildOutput_eq (l : List (ℤ × TenInfo))
    (h : (l.map (fun x => x.2.name)).Nodup) :
    buildOutput l = l.map (fun x => (x.2.name, outRecOf x.2)) := by
  have := foldl_dictInsert_append (fun x : ℤ × TenInfo => x.2.name)
    (fun x => outRecOf x.2) l [] (by simpa using h)
  simpa [buildOutput] using this

/-- C8 counterexample: with ATL's roster arriving as Bob (1 continuous
season) before Amy (5 continuous seasons), the output keeps roster order
and is not sorted by (team, descending count, name). -/
theorem c8_counterexample :
    ¬ List.Pairwise c8Le (tenureOutput c8RosterGet c8CareerGet (fun _ => none)) := by
  decide

/-- C8 (amended): the teams are visited in ascending abbreviation order,
and the output players mapping lists players grouped by team in that
order, each team's players in API roster-row order (shown here under
globally distinct player ids and names; no sort by descending
continuous-season count or name is applied). -/
theorem c8_amended_order :
    ((sortByAbbr NBA_TEAMS).map Prod.snd =
      [("ATL"), ("BKN"), ("BOS"), ("CHA"), ("CHI"), ("CLE"), ("DAL"), ("DEN"),
       ("DET"), ("GSW"), ("HOU"), ("IND"), ("LAC"), ("LAL"), ("MEM"), ("MIA"),
       ("MIL"), ("MIN"), ("NOP"), ("NYK"), ("OKC"), ("ORL"), ("PHI"), ("PHX"),
       ("POR"), ("SAC"), ("SAS"), ("TOR"), ("UTA"), ("WAS")]) ∧
    (∀ rg cg gg, (allRosterPids rg).Nodup → (allRosterNames rg).Nodup →
      (tenureOutput rg cg gg).map Prod.fst = allRosterNames rg) := by
  refine ⟨by decide, ?_⟩
  intro rg cg gg hp hn
  have hnames : (fallbackDates (phase3 gg (phase2 cg (fetch_all_rosters rg)))).map
      (fun x => x.2.name) = allRosterNames rg := by
    rw [map_name_fallback, map_name_phase3, map_name_phase2,
      fetch_all_rosters_eq rg hp, List.map_flatten, List.map_map]
    unfold allRosterNames
    congr 1
    refine List.map_congr_left ?_
    intro ta _
    simp [List.map_map, Function.comp, rosterInfoOf]
  have hn2 : ((fallbackDates (phase3 gg (phase2 cg (fetch_all_rosters rg)))).map
      (fun x => x.2.name)).Nodup := by
    rw [hnames]; exact hn
  simp only [tenureOutput]
  rw [buildOutput_eq _ hn2, List.map_map]
  exact hnames

/-- C8 witness: the order theorem applied to the concrete two-player
roster. -/
theorem c8_witness :
    (tenureOutput c8RosterGet c8CareerGet (fun _ => none)).map Prod.fst =
      allRosterNames c8RosterGet :=
  c8_amended_order.2 c8RosterGet c8CareerGet (fun _ => none)
    (by decide) (by decide)

end Contracts
